import Mathlib

/-!
Shallow embedding of the rig-construction engine of the Maya Auto Rigger
(src/src/AutoRigger.py).  Scene-mutating Maya calls are modelled as pure
state transformations: positions are rational 3-vectors, the scene graph is
an explicit parent map, Maya's `reverse` utility node is given its
documented semantics (outputX = 1 - inputX), and Python's `dict[key]`
lookup (KeyError on a missing key) is modelled with `Except String`.
-/

namespace AutoRigger

/-- Decidable equality for `Except` values (not provided by core). -/
instance exceptDecEq {ε α : Type} [DecidableEq ε] [DecidableEq α] :
    DecidableEq (Except ε α) := fun a b =>
  match a, b with
  | .error e, .error f =>
      if h : e = f then .isTrue (by rw [h])
      else .isFalse (fun hx => h (by cases hx; rfl))
  | .error _, .ok _ => .isFalse (fun hx => Except.noConfusion hx)
  | .ok _, .error _ => .isFalse (fun hx => Except.noConfusion hx)
  | .ok x, .ok y =>
      if h : x = y then .isTrue (by rw [h])
      else .isFalse (fun hx => h (by cases hx; rfl))

/-- 3D position with exact rational coordinates (Maya float triples). -/
structure Vec3 where
  x : ℚ
  y : ℚ
  z : ℚ
deriving DecidableEq, Repr

/-- Componentwise vector addition. -/
def Vec3.add (a b : Vec3) : Vec3 := ⟨a.x + b.x, a.y + b.y, a.z + b.z⟩

/-- Componentwise vector subtraction. -/
def Vec3.sub (a b : Vec3) : Vec3 := ⟨a.x - b.x, a.y - b.y, a.z - b.z⟩

/-- Scalar multiple of a vector. -/
def Vec3.scale (q : ℚ) (a : Vec3) : Vec3 := ⟨q * a.x, q * a.y, q * a.z⟩

/-- Mirror a position across the YZ plane: `(x, y, z) ↦ (-x, y, z)`.
This is the position transform used by `Markers.defaultRightMarkers`
(`rightMarkers.append((name.replace('_l', '_r'), (-x, y, z)))`). -/
def Vec3.mirrorX (a : Vec3) : Vec3 := ⟨-a.x, a.y, a.z⟩

/-- Python's `name.replace('_l', '_r')` on the character list: scan left to
right, replacing every non-overlapping occurrence of `_l` by `_r`.
Specialised to the source's fixed pattern so the recursion is structural. -/
def replaceLR : List Char → List Char
  | [] => []
  | '_' :: 'l' :: rest => '_' :: 'r' :: replaceLR rest
  | c :: rest => c :: replaceLR rest

/-- Python's `name.replace('_l', '_r')` (as called by
`Markers.defaultRightMarkers`). -/
def pyReplaceLtoR (s : String) : String := ⟨replaceLR s.data⟩

namespace Markers

/-- `Markers.defaultBaseMarkers` of the source: the plain-spine base marker
set, `(name, position)` pairs. -/
def defaultBaseMarkers : List (String × Vec3) :=
  [("root", ⟨0, 0, 0⟩), ("pelvis", ⟨0, 105, 0⟩),
   ("spine1", ⟨0, 125, 5⟩), ("spine2", ⟨0, 138, 2.5⟩), ("spine3", ⟨0, 150, -4.5⟩),
   ("neck", ⟨0, 158.5, -3⟩), ("head", ⟨0, 181.5, 1⟩)]

/-- `Markers.defaultLeftMarkers` of the source: the left-side marker set. -/
def defaultLeftMarkers : List (String × Vec3) :=
  [("clavicle_l", ⟨14, 149.5, -4.5⟩), ("upperArm_l", ⟨23.5, 145.5, -4.5⟩),
   ("lowerArm_l", ⟨36, 129, -5.5⟩), ("hand_l", ⟨58.5, 110, 5⟩),
   ("thumb1_l", ⟨57, 106, 11.5⟩), ("thumb2_l", ⟨57, 104.5, 15⟩), ("thumb3_l", ⟨57.5, 102, 19⟩),
   ("index1_l", ⟨64, 103, 12.5⟩), ("index2_l", ⟨65, 98, 15⟩), ("index3_l", ⟨64.5, 94.5, 17⟩),
   ("middle1_l", ⟨65, 102, 9⟩), ("middle2_l", ⟨66, 96.5, 11⟩), ("middle3_l", ⟨62, 92, 12.5⟩),
   ("thigh_l", ⟨9, 95, 1⟩), ("knee_l", ⟨14, 55, 0⟩), ("foot_l", ⟨15.5, 15.5, -6⟩),
   ("ball_l", ⟨17, 3.5, 5⟩), ("toe_l", ⟨17, 3.5, 15.5⟩)]

/-- `Markers.defaultRightMarkers` of the source: derived from the left set by
`name.replace('_l', '_r')` (replace every occurrence, implemented by
`pyReplaceLtoR`) and negating X. -/
def defaultRightMarkers : List (String × Vec3) :=
  defaultLeftMarkers.map (fun m => (pyReplaceLtoR m.1, m.2.mirrorX))

/-- `Markers.defaultSplineBaseMarkers` of the source: the spline-spine base
marker set. -/
def defaultSplineBaseMarkers : List (String × Vec3) :=
  [("root", ⟨0, 0, 0⟩), ("pelvis", ⟨0, 105, 0⟩),
   ("spine1", ⟨0, 111, 1.5⟩), ("spine2", ⟨0, 117, 3⟩), ("spine3", ⟨0, 125, 5⟩),
   ("spine4", ⟨0, 129, 4⟩), ("spine5", ⟨0, 133, 3⟩), ("spine6", ⟨0, 138, 2.5⟩),
   ("spine7", ⟨0, 142, 0.5⟩), ("spine8", ⟨0, 146, -2⟩), ("spine9", ⟨0, 150, -4.5⟩),
   ("neck", ⟨0, 158.5, -3⟩), ("head", ⟨0, 181.5, 1⟩)]

/-- Spec-side renaming: replace a trailing `_l` suffix by `_r`, leaving
other names unchanged.  Used to compare the source's `replace`-based
renaming against the spec's wording "the `_l` suffix replaced by `_r`". -/
def renameLeftSuffix (n : String) : String :=
  match n.data.reverse with
  | 'l' :: '_' :: rest => ⟨rest.reverse ++ ['_', 'r']⟩
  | _ => n

end Markers

/-! ## Snap Solver (`FKIK.snapIKtoFK`, `FKIK.snapFKtoIK`) -/

/-- World-space pose of a node: position and rotation triple. -/
structure Pose where
  pos : Vec3
  rot : Vec3
deriving DecidableEq, Repr

/-- The state written by `FKIK.snapIKtoFK`: the IK handle's world pose
(written by `cmds.matchTransform`) and the pole-vector controller's
position (written by `cmds.move`). -/
structure IKSnapState where
  handlePose : Pose
  pvPos : Vec3
deriving DecidableEq, Repr

namespace FKIK

/-- `FKIK.snapIKtoFK` of the source, as a function of the world poses of the
FK controllers.  `none` models the Python `IndexError` on an out-of-range
list index.  Steps, in source order:
`cmds.matchTransform(ikHandle, fkControls[-1], pos=True, rot=True)`;
`initPos = fkControls[0 + offset]`; `midPos = fkControls[1 + offset]`;
`finPos = fkControls[-1]`; `meanPos = (initPos + finPos) / 2`;
`dir = midPos - meanPos`; `pvPos = midPos + dir * 2`;
`cmds.move(pvPos, ikPv)`.  The `ikControls` argument is accepted and unused,
exactly as in the source. -/
def snapIKtoFK (fkControls : List Pose) (ikControls : List String)
    (_st : IKSnapState) (offset : Nat) : Option IKSnapState :=
  match fkControls.getLast?, fkControls[offset]?, fkControls[offset + 1]? with
  | some finCtrl, some initCtrl, some midCtrl =>
      let _ := ikControls
      let initPos := initCtrl.pos
      let midPos := midCtrl.pos
      let finPos := finCtrl.pos
      let meanPos := Vec3.scale (1/2) (initPos.add finPos)
      let dir := midPos.sub meanPos
      let pvPos := midPos.add (Vec3.scale 2 dir)
      some { handlePose := finCtrl, pvPos := pvPos }
  | _, _, _ => none

/-- `FKIK.snapFKtoIK` of the source: for each corresponding (fk control,
ik joint) pair — `zip`, so the shorter list bounds the traversal — copy the
IK joint's three rotation channels onto the FK control. -/
def snapFKtoIK (fkRotations ikRotations : List Vec3) : List Vec3 :=
  (fkRotations.zip ikRotations).map (fun p => p.2) ++
    fkRotations.drop ikRotations.length

end FKIK

/-! ## Skeleton Builder (`Skeleton.createSkeleton`)

`markerData` is the Python dict `{markerName: position}`; `markerData[name]`
on a missing key raises `KeyError(name)`, modelled as `Except.error name`
(the `MissingMarkerError` of the spec's taxonomy).  A created joint records
its name, its parent joint's name (`None` for the root) and its position. -/

/-- A created joint: name, parent joint name (none for the root), position. -/
structure Joint where
  name : String
  parent : Option String
  pos : Vec3
deriving DecidableEq, Repr

namespace Skeleton

/-- `Skeleton.createJointFromMarker`: look the marker up in the marker-data
dict (KeyError — `MissingMarkerError` — when absent) and create a joint with
that name, the given parent and the marker's position. -/
def createJointFromMarker (markerName : String) (markerData : String → Option Vec3)
    (jParent : Option String) : Except String Joint :=
  match markerData markerName with
  | none => .error markerName
  | some pos => .ok ⟨markerName, jParent, pos⟩

/-- `Skeleton.createJointChainFromMarkers`: create one joint per marker name,
each joint parented to the previous one (the first to `jParent`), returning
the chain in creation order. -/
def createJointChainFromMarkers (markerNames : List String)
    (markerData : String → Option Vec3) (jParent : Option String) :
    Except String (List Joint) :=
  match markerNames with
  | [] => .ok []
  | n :: rest => do
      let j ← createJointFromMarker n markerData jParent
      let chain ← createJointChainFromMarkers rest markerData (some j.name)
      pure (j :: chain)

/-- Python negative indexing `l[-3]` (used as `spineJs[-3]` in the source):
the element three positions from the far end; `IndexError` when the list has
fewer than three elements. -/
def pyIdxNeg3 (l : List Joint) : Except String Joint :=
  if h : 3 ≤ l.length then .ok (l.get ⟨l.length - 3, by omega⟩)
  else .error "IndexError"

/-- Python `l[-1]` (used as `leftArmJs[-1]` in the source): the last element;
`IndexError` on an empty list. -/
def pyIdxLast (l : List Joint) : Except String Joint :=
  match l.getLast? with
  | some j => .ok j
  | none => .error "IndexError"

/-- `baseMarkers = [marker[0] for marker in Markers.default(Spline)BaseMarkers()]`. -/
def baseMarkerNames (splineSpine : Bool) : List String :=
  (if splineSpine then Markers.defaultSplineBaseMarkers
   else Markers.defaultBaseMarkers).map Prod.fst

/-- `leftSideMarkers = [marker[0] for marker in Markers.defaultLeftMarkers()]`. -/
def leftMarkerNames : List String := Markers.defaultLeftMarkers.map Prod.fst

/-- `rightSideMarkers = [marker[0] for marker in Markers.defaultRightMarkers()]`. -/
def rightMarkerNames : List String := Markers.defaultRightMarkers.map Prod.fst

/-- The tuple returned by `Skeleton.createSkeleton`. -/
structure SkelResult where
  rootJ : Joint
  pelvisJ : Joint
  spineJs : List Joint
  leftArmJs : List Joint
  leftThumbJs : List Joint
  leftIndexJs : List Joint
  leftMiddleJs : List Joint
  leftLegJs : List Joint
  rightArmJs : List Joint
  rightThumbJs : List Joint
  rightIndexJs : List Joint
  rightMiddleJs : List Joint
  rightLegJs : List Joint
deriving DecidableEq, Repr

/-- `Skeleton.createSkeleton`: root and pelvis joints, the spine chain from
`baseMarkers[2:]` under pelvis, arm chains under `spineJs[-3]`, digit chains
under `armJs[-1]`, leg chains under pelvis — in exactly the source's order,
for both sides unconditionally.  Python slices `l[:4]`, `l[4:7]`, `l[7:10]`,
`l[10:13]`, `l[13:]` are `take 4`, `(drop 4).take 3`, `(drop 7).take 3`,
`(drop 10).take 3`, `drop 13`. -/
def createSkeleton (markerData : String → Option Vec3) (splineSpine : Bool) :
    Except String SkelResult := do
  let baseMarkers := baseMarkerNames splineSpine
  let leftSideMarkers := leftMarkerNames
  let rightSideMarkers := rightMarkerNames
  let rootJ ← createJointFromMarker "root" markerData none
  let pelvisJ ← createJointFromMarker "pelvis" markerData (some rootJ.name)
  let spineJs ← createJointChainFromMarkers (baseMarkers.drop 2) markerData
      (some pelvisJ.name)
  let spineAttach ← pyIdxNeg3 spineJs
  let leftArmJs ← createJointChainFromMarkers (leftSideMarkers.take 4) markerData
      (some spineAttach.name)
  let leftHand ← pyIdxLast leftArmJs
  let leftThumbJs ← createJointChainFromMarkers ((leftSideMarkers.drop 4).take 3)
      markerData (some leftHand.name)
  let leftIndexJs ← createJointChainFromMarkers ((leftSideMarkers.drop 7).take 3)
      markerData (some leftHand.name)
  let leftMiddleJs ← createJointChainFromMarkers ((leftSideMarkers.drop 10).take 3)
      markerData (some leftHand.name)
  let leftLegJs ← createJointChainFromMarkers (leftSideMarkers.drop 13) markerData
      (some pelvisJ.name)
  let rightArmJs ← createJointChainFromMarkers (rightSideMarkers.take 4) markerData
      (some spineAttach.name)
  let rightHand ← pyIdxLast rightArmJs
  let rightThumbJs ← createJointChainFromMarkers ((rightSideMarkers.drop 4).take 3)
      markerData (some rightHand.name)
  let rightIndexJs ← createJointChainFromMarkers ((rightSideMarkers.drop 7).take 3)
      markerData (some rightHand.name)
  let rightMiddleJs ← createJointChainFromMarkers ((rightSideMarkers.drop 10).take 3)
      markerData (some rightHand.name)
  let rightLegJs ← createJointChainFromMarkers (rightSideMarkers.drop 13) markerData
      (some pelvisJ.name)
  pure ⟨rootJ, pelvisJ, spineJs, leftArmJs, leftThumbJs, leftIndexJs, leftMiddleJs,
        leftLegJs, rightArmJs, rightThumbJs, rightIndexJs, rightMiddleJs, rightLegJs⟩

/-- The marker names the selected topology requires: the base (or spline
base) set plus the left and right side sets — every name `createSkeleton`
looks up in the marker-data dict. -/
def requiredMarkers (splineSpine : Bool) : List String :=
  ((if splineSpine then Markers.defaultSplineBaseMarkers
    else Markers.defaultBaseMarkers)
    ++ Markers.defaultLeftMarkers ++ Markers.defaultRightMarkers).map Prod.fst

/-- Marker-position map built from an association list (first match wins,
like a Python dict built from unique keys). -/
def markerMapOf (l : List (String × Vec3)) : String → Option Vec3 :=
  fun n => (l.find? (fun m => m.1 = n)).map Prod.snd

/-- The half-body marker map the GUI builds before mirroring: base (or
spline base) markers plus left-side markers only. -/
def halfBodyData (splineSpine : Bool) : String → Option Vec3 :=
  markerMapOf ((if splineSpine then Markers.defaultSplineBaseMarkers
                else Markers.defaultBaseMarkers) ++ Markers.defaultLeftMarkers)

/-- The full-body marker map: base (or spline base), left and right sets. -/
def fullBodyData (splineSpine : Bool) : String → Option Vec3 :=
  markerMapOf ((if splineSpine then Markers.defaultSplineBaseMarkers
                else Markers.defaultBaseMarkers)
               ++ Markers.defaultLeftMarkers ++ Markers.defaultRightMarkers)

end Skeleton

/-! ## FK Rig Builder (`FK.createFKCharacterControllers`)

The joint hierarchy below a root joint is a finite tree: a joint name plus
the list of child joint subtrees (`cmds.listRelatives(j, c=True,
type='joint')`).  A mutual inductive (tree / forest) keeps all recursion
structural. -/

mutual
/-- A joint subtree: the joint's name and its child subtrees. -/
inductive JTree where
  | node (name : String) (kids : JForest)
/-- A list of joint subtrees. -/
inductive JForest where
  | nil
  | cons (t : JTree) (ts : JForest)
end

namespace FK

mutual
/-- `FK.createFKCharacterControllers`: create the controller `'ctrl_' + name`
for the root joint; if `endJoint` is given and equals the root joint, return
just that controller; otherwise recurse into every child joint and append
the recursive results in child order. -/
def createFKCharacterControllers (t : JTree) (endJoint : Option String) :
    List String :=
  match t with
  | .node n kids =>
      if endJoint = some n then ["ctrl_" ++ n]
      else ("ctrl_" ++ n) :: createFKForest kids endJoint

/-- The `for kid in kids: controllers.extend(...)` loop of
`createFKCharacterControllers`. -/
def createFKForest (ts : JForest) (endJoint : Option String) : List String :=
  match ts with
  | .nil => []
  | .cons t rest => createFKCharacterControllers t endJoint ++ createFKForest rest endJoint
end

mutual
/-- The traversed range of the recursion: the tree pruned below `endJoint`
(a node named `endJoint` keeps no children). -/
def truncateAt (t : JTree) (endJoint : Option String) : JTree :=
  match t with
  | .node n kids =>
      if endJoint = some n then .node n .nil
      else .node n (truncateForest kids endJoint)

/-- `truncateAt` mapped over a forest. -/
def truncateForest (ts : JForest) (endJoint : Option String) : JForest :=
  match ts with
  | .nil => .nil
  | .cons t rest => .cons (truncateAt t endJoint) (truncateForest rest endJoint)
end

mutual
/-- Pre-order traversal of the joint names of a tree: each joint before all
joints of its child subtrees. -/
def preorderNames (t : JTree) : List String :=
  match t with
  | .node n kids => n :: preorderForest kids

/-- Pre-order traversal of a forest. -/
def preorderForest (ts : JForest) : List String :=
  match ts with
  | .nil => []
  | .cons t rest => preorderNames t ++ preorderForest rest
end

mutual
/-- Number of joints in a tree. -/
def treeSize (t : JTree) : Nat :=
  match t with
  | .node _ kids => 1 + forestSize kids

/-- Number of joints in a forest. -/
def forestSize (ts : JForest) : Nat :=
  match ts with
  | .nil => 0
  | .cons t rest => treeSize t + forestSize rest
end

end FK

/-! ## FK/IK Switch Builder (`FKIK.createFKIKSwitch`)

Attribute lock/keyable/channel-box flags are a map from `(node, attribute)`
pairs; the blend wiring per chain index is recorded exactly as the source
connects it, and evaluated with Maya's documented `reverse`-node semantics
`outputX = 1 - inputX`. -/

/-- Lock / keyable / channel-box flags of one attribute. -/
structure AttrFlags where
  locked : Bool
  keyable : Bool
  channelBox : Bool
deriving DecidableEq, Repr

/-- A node attribute, `(node, attribute)`. -/
abbrev Attr := String × String

/-- Attribute flag state of the scene. -/
def AttrState := Attr → AttrFlags

/-- Maya's default transform-channel flags: unlocked, keyable, shown. -/
def defaultAttrState : AttrState := fun _ => ⟨false, true, true⟩

/-- `cmds.setAttr(node + '.' + attr, l=.., k=.., cb=..)`. -/
def setAttrFlags (st : AttrState) (node attr : String) (f : AttrFlags) : AttrState :=
  fun a => if a = (node, attr) then f else st a

namespace Helpers

/-- `Helpers.lockAndHide`: for each attribute,
`cmds.setAttr(node + '.' + attr, l=True, k=False, cb=False)`. -/
def lockAndHide (st : AttrState) (node : String) (attributes : List String) :
    AttrState :=
  attributes.foldl (fun acc attr => setAttrFlags acc node attr ⟨true, false, false⟩) st

end Helpers

/-- The wiring the `createFKIKSwitch` loop lays down for one index of the
zipped `(fkChain, ikChain, bindChain)`: an orient constraint `ocName` on
bind joint `constrained` with targets `fkTarget` (weight `w0`) and
`ikTarget` (weight `w1`); `w1` is connected from the switch attribute, the
dedicated `reverse` node `revName`'s `inputX` is connected from the switch
attribute, and `w0` is connected from that node's `outputX`. -/
structure OrientBlend where
  fkTarget : String
  ikTarget : String
  constrained : String
  ocName : String
  revName : String
  w1Src : Attr
  w0Src : Attr
  revInSrc : Attr
deriving DecidableEq, Repr

/-- Everything `FKIK.createFKIKSwitch` creates: the switch control (carrying
the `FKIK_Switch` enum attribute), the per-index orient-blend wirings, the
visibility wiring through the `_reverseVis` node, and the resulting
attribute-flag state. -/
structure SwitchResult where
  switchCtrl : String
  switchAttr : Attr
  blends : List OrientBlend
  reverseVis : String
  visConnections : List (Attr × Attr)
  attrState : AttrState

namespace FKIK

/-- `FKIK.createFKIKSwitch`, source order: create the switch circle named
`switchName`; `cmds.addAttr(.., ln='FKIK_Switch', at='enum', k=True)`; for
each `zip(fkChain, ikChain, bindChain)` index an orient constraint plus a
`reverse_<bind>` node wired as in `OrientBlend`; a `<switchName>_reverseVis`
reverse node feeding every FK controller's visibility, the switch attribute
feeding the start/ik/pv controllers' visibility; finally
`Helpers.lockAndHide` on all nine transform channels of the switch. -/
def createFKIKSwitch (fkChain ikChain bindChain fkCntrls : List String)
    (startCntrl ikCntrl pvCntrl switchName : String) (st : AttrState) :
    SwitchResult :=
  let switchCtrl := switchName
  let st1 := setAttrFlags st switchCtrl "FKIK_Switch" ⟨false, true, true⟩
  let blends := (fkChain.zip (ikChain.zip bindChain)).map (fun p =>
    { fkTarget := p.1, ikTarget := p.2.1, constrained := p.2.2,
      ocName := p.2.2 ++ "_orientConstraint1",
      revName := "reverse_" ++ p.2.2,
      w1Src := (switchCtrl, "FKIK_Switch"),
      w0Src := ("reverse_" ++ p.2.2, "outputX"),
      revInSrc := (switchCtrl, "FKIK_Switch") })
  let reverseVis := switchName ++ "_reverseVis"
  let visConnections :=
    ((switchCtrl, "FKIK_Switch"), (reverseVis, "inputX")) ::
      fkCntrls.map (fun c => ((reverseVis, "outputX"), (c, "visibility")))
      ++ [((switchCtrl, "FKIK_Switch"), (startCntrl, "visibility")),
          ((switchCtrl, "FKIK_Switch"), (ikCntrl, "visibility")),
          ((switchCtrl, "FKIK_Switch"), (pvCntrl, "visibility"))]
  let st2 := Helpers.lockAndHide st1 switchCtrl
    ["tx", "ty", "tz", "rx", "ry", "rz", "sx", "sy", "sz"]
  ⟨switchCtrl, (switchCtrl, "FKIK_Switch"), blends, reverseVis, visConnections, st2⟩

end FKIK

/-- Evaluate a driven scalar attribute of one orient-blend wiring at switch
value `w`: the switch attribute yields `w`; the blend's `reverse` node's
`outputX` yields `1 -` the value of its `inputX` source (Maya's documented
reverse-node semantics); other attributes are undriven.  `fuel` bounds the
chase through connections. -/
def evalAttr (ob : OrientBlend) (switchAttr : Attr) (w : ℚ) :
    Nat → Attr → Option ℚ
  | 0, _ => none
  | fuel + 1, a =>
      if a = switchAttr then some w
      else if a = (ob.revName, "outputX") then
        (evalAttr ob switchAttr w fuel ob.revInSrc).map (fun v => 1 - v)
      else none

/-- The computed IK-side weight (`w1`) of an orient blend at switch value `w`. -/
def OrientBlend.ikWeight (ob : OrientBlend) (switchAttr : Attr) (w : ℚ) : Option ℚ :=
  evalAttr ob switchAttr w 2 ob.w1Src

/-- The computed FK-side weight (`w0`) of an orient blend at switch value `w`. -/
def OrientBlend.fkWeight (ob : OrientBlend) (switchAttr : Attr) (w : ℚ) : Option ℚ :=
  evalAttr ob switchAttr w 2 ob.w0Src

/-! ## Scale Propagation Reparenter (`AutoRiggerGUI.createUnifromScaling`) -/

/-- A transform hierarchy: the scene's node names and each node's parent. -/
structure Hierarchy where
  nodes : List String
  parentOf : String → Option String

/-- `cmds.listRelatives(g, children=True)`: the nodes whose parent is `g`. -/
def Hierarchy.children (d : Hierarchy) (g : String) : List String :=
  d.nodes.filter (fun n => d.parentOf n == some g)

/-- `cmds.parent(n, target)`. -/
def Hierarchy.reparent (d : Hierarchy) (n target : String) : Hierarchy :=
  { d with parentOf := fun m => if m = n then some target else d.parentOf m }

/-- `AutoRiggerGUI.createUnifromScaling` (name as in the source): take the
children of the rig group `parentGrp`, remove the root controller's offset
node `rootCntrl + '_parent'` from that list, and reparent the rest under
`rootCntrl`; then take the children of the offset node, remove `rootCntrl`
itself, and reparent the rest under `rootCntrl`.  (Python's `list.remove`
drops the first occurrence; `List.erase` does the same.) -/
def createUnifromScaling (d : Hierarchy) (rootCntrl parentGrp : String) :
    Hierarchy :=
  let parentKids := (d.children parentGrp).erase (rootCntrl ++ "_parent")
  let d1 := parentKids.foldl (fun acc kid => acc.reparent kid rootCntrl) d
  let rootCntrlKids := (d1.children (rootCntrl ++ "_parent")).erase rootCntrl
  rootCntrlKids.foldl (fun acc kid => acc.reparent kid rootCntrl) d1

/-- The spec's pole-vector target formula, in its words: `mean = (p0+p2)/2`,
`dir = p1 - mean`, target `= p1 + dir * 2` — stated independently of the
source so the source's computation can be compared against it. -/
def specPoleVectorTarget (p0 p1 p2 : Vec3) : Vec3 :=
  let mean := Vec3.scale (1/2) (p0.add p2)
  let dir := p1.sub mean
  p1.add (Vec3.scale 2 dir)

/-- Concrete world pose of the chain-start FK controller in the spec's
bent-knee scenario. -/
def snapP0 : Pose := ⟨⟨0, 10, 0⟩, ⟨0, 0, 0⟩⟩

/-- Concrete world pose of the bend (knee) FK controller. -/
def snapP1 : Pose := ⟨⟨0, 5, -2⟩, ⟨0, 0, 0⟩⟩

/-- Concrete world pose of the chain-end FK controller. -/
def snapP2 : Pose := ⟨⟨0, 0, 0⟩, ⟨0, 0, 0⟩⟩

/-- The three FK controller poses of the spec's bent-knee scenario. -/
def snapFKControls : List Pose := [snapP0, snapP1, snapP2]

/-- An arbitrary pre-snap state for the IK handle and pole vector. -/
def snapSt0 : IKSnapState := ⟨⟨⟨0, 0, 0⟩, ⟨0, 0, 0⟩⟩, ⟨0, 0, 0⟩⟩

/-- A concrete switch build on the left-leg chains (the names the GUI
passes for `'leg_l'`), for concrete evaluation. -/
def sampleSwitch : SwitchResult :=
  FKIK.createFKIKSwitch
    ["fk_leg_l_thigh_l", "fk_leg_l_knee_l", "fk_leg_l_foot_l"]
    ["ik_leg_l_thigh_l", "ik_leg_l_knee_l", "ik_leg_l_foot_l"]
    ["thigh_l", "knee_l", "foot_l"]
    ["ctrl_fk_leg_l_thigh_l", "ctrl_fk_leg_l_knee_l", "ctrl_fk_leg_l_foot_l"]
    "ctrl_leg_l_start_ik" "ctrl_leg_l_ik" "ctrl_leg_l_pv" "leg_l_switch"
    defaultAttrState

/-- The first orient-blend wiring of `sampleSwitch` (bind joint `thigh_l`). -/
def sampleBlend : OrientBlend :=
  { fkTarget := "fk_leg_l_thigh_l", ikTarget := "ik_leg_l_thigh_l",
    constrained := "thigh_l", ocName := "thigh_l_orientConstraint1",
    revName := "reverse_thigh_l",
    w1Src := ("leg_l_switch", "FKIK_Switch"),
    w0Src := ("reverse_thigh_l", "outputX"),
    revInSrc := ("leg_l_switch", "FKIK_Switch") }

/-- A concrete post-cleanup rig hierarchy: the `rig` group owns the root
controller's offset node, the skeleton root and an IK handle; the offset
node owns the root controller and the pelvis controller's offset. -/
def sampleRig : Hierarchy :=
  { nodes := ["rig", "ctrl_root_parent", "ctrl_root", "skeleton_root",
              "leg_ik_l", "ctrl_pelvis_parent"],
    parentOf := fun n =>
      if n = "ctrl_root_parent" then some "rig"
      else if n = "ctrl_root" then some "ctrl_root_parent"
      else if n = "skeleton_root" then some "rig"
      else if n = "leg_ik_l" then some "rig"
      else if n = "ctrl_pelvis_parent" then some "ctrl_root_parent"
      else none }

/-! ## Theorems -/

/-- **C5.**  `Markers.defaultRightMarkers` maps each left marker
`(name, (x,y,z))` to `(name with the _l suffix replaced by _r, (-x,y,z))`;
mirroring positions is an involution (applying it a second time returns
every original position), though not the identity on names. -/
theorem claim_C5_right_markers_mirror :
    Markers.defaultRightMarkers
      = Markers.defaultLeftMarkers.map
          (fun m => (Markers.renameLeftSuffix m.1, m.2.mirrorX))
    ∧ (∀ v : Vec3, v.mirrorX.mirrorX = v)
    ∧ Markers.defaultRightMarkers.map (fun m => m.2.mirrorX)
        = Markers.defaultLeftMarkers.map (fun m => m.2) := by
  refine ⟨rfl, ?_, ?_⟩
  · intro v
    cases v
    simp [Vec3.mirrorX]
  · simp [Markers.defaultRightMarkers, Markers.defaultLeftMarkers, Vec3.mirrorX]

/-- **C2.**  For every call to `snapIKtoFK` with offset `o`, with `p0` the
world position of `fkControls[o]`, `p1` that of `fkControls[o+1]` and `p2`
that of the last FK controller, the IK handle is matched to the last FK
controller's pose and the pole-vector controller is moved exactly to
`p1 + dir * 2` where `mean = (p0+p2)/2` and `dir = p1 - mean`. -/
theorem claim_C2_snapIKtoFK_pole_vector (fkControls : List Pose)
    (ikControls : List String) (st : IKSnapState) (offset : Nat) (c0 c1 c2 : Pose)
    (h0 : fkControls[offset]? = some c0)
    (h1 : fkControls[offset + 1]? = some c1)
    (h2 : fkControls.getLast? = some c2) :
    FKIK.snapIKtoFK fkControls ikControls st offset
      = some { handlePose := c2,
               pvPos := specPoleVectorTarget c0.pos c1.pos c2.pos } := by
  unfold FKIK.snapIKtoFK
  rw [h0, h1, h2]
  rfl

/-- Witness for C2: a concrete bent three-controller chain at offset 0. -/
theorem claim_C2_snapIKtoFK_pole_vector_witness :
    snapFKControls[0]? = some snapP0
    ∧ snapFKControls[0 + 1]? = some snapP1
    ∧ snapFKControls.getLast? = some snapP2
    ∧ FKIK.snapIKtoFK snapFKControls [] snapSt0 0
        = some { handlePose := snapP2,
                 pvPos := specPoleVectorTarget snapP0.pos snapP1.pos snapP2.pos } :=
  ⟨rfl, rfl, rfl,
   claim_C2_snapIKtoFK_pole_vector snapFKControls [] snapSt0 0 snapP0 snapP1 snapP2
     rfl rfl rfl⟩

/-- Counterexample to **C3**: on `p0=(0,10,0)`, `p1=(0,5,-2)`, `p2=(0,0,0)`
with offset 0, the source moves the pole-vector controller to `(0,5,-6)` —
`midPos + dir * 2 = (0,5,-2) + (0,0,-4)` — not to `(0,5,-4)` as claimed. -/
theorem claim_C3_counterexample :
    (FKIK.snapIKtoFK snapFKControls [] snapSt0 0).map (fun s => s.pvPos)
      = some ⟨0, 5, -6⟩
    ∧ (⟨0, 5, -6⟩ : Vec3) ≠ ⟨0, 5, -4⟩ := by
  constructor
  · norm_num [FKIK.snapIKtoFK, snapFKControls, snapP0, snapP1, snapP2, snapSt0,
              Vec3.add, Vec3.sub, Vec3.scale]
  · norm_num [Vec3.mk.injEq]

/-- **C3 (amended).**  On `p0=(0,10,0)`, `p1=(0,5,-2)`, `p2=(0,0,0)` with
offset 0, `snapIKtoFK` computes `mean=(0,5,0)` and `dir=(0,0,-2)` as the
spec says, but moves the pole-vector controller to `(0,5,-6)`
(`= p1 + dir * 2`), not `(0,5,-4)`. -/
theorem claim_C3_amended_concrete_snap :
    Vec3.scale (1/2) (Vec3.add ⟨0, 10, 0⟩ ⟨0, 0, 0⟩) = ⟨0, 5, 0⟩
    ∧ Vec3.sub ⟨0, 5, -2⟩ ⟨0, 5, 0⟩ = ⟨0, 0, -2⟩
    ∧ (FKIK.snapIKtoFK snapFKControls [] snapSt0 0).map (fun s => s.pvPos)
      = some ⟨0, 5, -6⟩ := by
  refine ⟨?_, ?_, ?_⟩
  · norm_num [Vec3.scale, Vec3.add]
  · norm_num [Vec3.sub]
  · norm_num [FKIK.snapIKtoFK, snapFKControls, snapP0, snapP1, snapP2, snapSt0,
              Vec3.add, Vec3.sub, Vec3.scale]

mutual

/-- `createFKCharacterControllers` produces exactly the pre-order traversal
of the `endJoint`-truncated tree, with each name prefixed `ctrl_`. -/
theorem fk_eq_truncated_preorder (t : JTree) (e : Option String) :
    FK.createFKCharacterControllers t e
      = (FK.preorderNames (FK.truncateAt t e)).map (fun n => "ctrl_" ++ n) := by
  cases t with
  | node n kids =>
    by_cases h : e = some n
    · simp [FK.createFKCharacterControllers, FK.truncateAt, FK.preorderNames,
            FK.preorderForest, h]
    · simp [FK.createFKCharacterControllers, FK.truncateAt, FK.preorderNames, h,
            fkForest_eq_truncated_preorder kids e]

/-- Forest version of `fk_eq_truncated_preorder`. -/
theorem fkForest_eq_truncated_preorder (ts : JForest) (e : Option String) :
    FK.createFKForest ts e
      = (FK.preorderForest (FK.truncateForest ts e)).map (fun n => "ctrl_" ++ n) := by
  cases ts with
  | nil => simp [FK.createFKForest, FK.truncateForest, FK.preorderForest]
  | cons t rest =>
    simp [FK.createFKForest, FK.truncateForest, FK.preorderForest,
          fk_eq_truncated_preorder t e, fkForest_eq_truncated_preorder rest e]

end

mutual

/-- A pre-order traversal lists every joint of the tree exactly once. -/
theorem preorder_length_tree (t : JTree) :
    (FK.preorderNames t).length = FK.treeSize t := by
  cases t with
  | node n kids =>
    simp [FK.preorderNames, FK.treeSize, preorder_length_forest kids]
    omega

/-- Forest version of `preorder_length_tree`. -/
theorem preorder_length_forest (ts : JForest) :
    (FK.preorderForest ts).length = FK.forestSize ts := by
  cases ts with
  | nil => simp [FK.preorderForest, FK.forestSize]
  | cons t rest =>
    simp [FK.preorderForest, FK.forestSize, preorder_length_tree t,
          preorder_length_forest rest]

end

/-- **C6.**  `FK.createFKCharacterControllers` returns the created
controllers in pre-order (each controller before those of its child
joints — it equals the pre-order traversal of the `endJoint`-truncated
tree); its length equals the number of joints in the traversed range; it is
total (hence terminates) on every finite acyclic joint tree; and with
`rootJoint == endJoint` it returns exactly one controller. -/
theorem claim_C6_fk_controllers_preorder :
    (∀ (t : JTree) (e : Option String),
        FK.createFKCharacterControllers t e
          = (FK.preorderNames (FK.truncateAt t e)).map (fun n => "ctrl_" ++ n))
    ∧ (∀ (t : JTree) (e : Option String),
        (FK.createFKCharacterControllers t e).length
          = FK.treeSize (FK.truncateAt t e))
    ∧ (∀ (n : String) (kids : JForest),
        FK.createFKCharacterControllers (.node n kids) (some n) = ["ctrl_" ++ n]) := by
  refine ⟨fun t e => fk_eq_truncated_preorder t e, fun t e => ?_, fun n kids => ?_⟩
  · rw [fk_eq_truncated_preorder, List.length_map, preorder_length_tree]
  · simp [FK.createFKCharacterControllers]

/-- **C4.**  For every switch created by `createFKIKSwitch` and every
switch-attribute value `w ∈ [0,1]`, at every chain index the bind joint's
IK-side orient weight (`w1`) evaluates to `w` and its FK-side weight (`w0`)
to exactly `1 - w` — the output of the dedicated `reverse` (complement)
node — so `wFK + wIK = 1` holds by the wiring itself. -/
theorem claim_C4_switch_complementary_weights
    (fkChain ikChain bindChain fkCntrls : List String)
    (startCntrl ikCntrl pvCntrl switchName : String) (st : AttrState) (w : ℚ)
    (hw0 : 0 ≤ w) (hw1 : w ≤ 1) (ob : OrientBlend)
    (hob : ob ∈ (FKIK.createFKIKSwitch fkChain ikChain bindChain fkCntrls
                   startCntrl ikCntrl pvCntrl switchName st).blends) :
    ob.ikWeight (switchName, "FKIK_Switch") w = some w
    ∧ ob.fkWeight (switchName, "FKIK_Switch") w = some (1 - w)
    ∧ (ob.fkWeight (switchName, "FKIK_Switch") w).bind (fun a =>
        (ob.ikWeight (switchName, "FKIK_Switch") w).map (fun b => a + b))
      = some 1 := by
  simp only [FKIK.createFKIKSwitch] at hob
  obtain ⟨p, hp, rfl⟩ := List.mem_map.mp hob
  refine ⟨?_, ?_, ?_⟩ <;>
    simp [OrientBlend.ikWeight, OrientBlend.fkWeight, evalAttr, Prod.mk.injEq,
          sub_add_cancel]

/-- Witness for C4: the `thigh_l` blend of a concrete left-leg switch at
`w = 1/2`. -/
theorem claim_C4_switch_complementary_weights_witness :
    ((0 : ℚ) ≤ 1/2 ∧ (1/2 : ℚ) ≤ 1 ∧ sampleBlend ∈ sampleSwitch.blends)
    ∧ (sampleBlend.ikWeight ("leg_l_switch", "FKIK_Switch") (1/2) = some (1/2)
       ∧ sampleBlend.fkWeight ("leg_l_switch", "FKIK_Switch") (1/2)
           = some (1 - 1/2)
       ∧ (sampleBlend.fkWeight ("leg_l_switch", "FKIK_Switch") (1/2)).bind (fun a =>
            (sampleBlend.ikWeight ("leg_l_switch", "FKIK_Switch") (1/2)).map
              (fun b => a + b))
         = some 1) :=
  ⟨⟨by norm_num, by norm_num, by decide⟩,
   claim_C4_switch_complementary_weights
     ["fk_leg_l_thigh_l", "fk_leg_l_knee_l", "fk_leg_l_foot_l"]
     ["ik_leg_l_thigh_l", "ik_leg_l_knee_l", "ik_leg_l_foot_l"]
     ["thigh_l", "knee_l", "foot_l"]
     ["ctrl_fk_leg_l_thigh_l", "ctrl_fk_leg_l_knee_l", "ctrl_fk_leg_l_foot_l"]
     "ctrl_leg_l_start_ik" "ctrl_leg_l_ik" "ctrl_leg_l_pv" "leg_l_switch"
     defaultAttrState (1/2) (by norm_num) (by norm_num) sampleBlend (by decide)⟩

/-- **C10.**  When `createFKIKSwitch` returns, all nine transform channels
of the switch control are locked, non-keyable and hidden, while the
`FKIK_Switch` enum attribute it added is keyable and unlocked — so the enum
is the only user-modifiable channel on the switch control. -/
theorem claim_C10_switch_transform_channels_locked
    (fkChain ikChain bindChain fkCntrls : List String)
    (startCntrl ikCntrl pvCntrl switchName : String) (st : AttrState) :
    (["tx", "ty", "tz", "rx", "ry", "rz", "sx", "sy", "sz"].all (fun a =>
        let f := (FKIK.createFKIKSwitch fkChain ikChain bindChain fkCntrls
                    startCntrl ikCntrl pvCntrl switchName st).attrState
                  (switchName, a)
        f.locked && !f.keyable && !f.channelBox)) = true
    ∧ ((FKIK.createFKIKSwitch fkChain ikChain bindChain fkCntrls
          startCntrl ikCntrl pvCntrl switchName st).attrState
        (switchName, "FKIK_Switch")).keyable = true
    ∧ ((FKIK.createFKIKSwitch fkChain ikChain bindChain fkCntrls
          startCntrl ikCntrl pvCntrl switchName st).attrState
        (switchName, "FKIK_Switch")).locked = false := by
  refine ⟨?_, ?_, ?_⟩ <;>
    simp [FKIK.createFKIKSwitch, Helpers.lockAndHide, setAttrFlags,
          Prod.mk.injEq]

/-! ### Skeleton-builder lemmas -/

/-- `Except` bind on a success. -/
theorem exceptOkBind {ε α β : Type} (x : α) (f : α → Except ε β) :
    (Except.ok x >>= f) = f x := rfl

/-- `Except` bind on a failure. -/
theorem exceptErrorBind {ε α β : Type} (e : ε) (f : α → Except ε β) :
    ((Except.error e : Except ε α) >>= f) = Except.error e := rfl

/-- `pure` for `Except` is `ok`. -/
theorem exceptPureEq {ε α : Type} (x : α) :
    (pure x : Except ε α) = Except.ok x := rfl

namespace Skeleton

/-- A successful `createJointFromMarker` yields a joint with the requested
name and parent, and the marker was present in the data. -/
theorem createJointFromMarker_ok {n : String} {md : String → Option Vec3}
    {p : Option String} {j : Joint}
    (h : createJointFromMarker n md p = .ok j) :
    j.name = n ∧ j.parent = p ∧ (md n).isSome := by
  unfold createJointFromMarker at h
  cases hmd : md n with
  | none => rw [hmd] at h; cases h
  | some v =>
    rw [hmd] at h
    cases h
    exact ⟨rfl, rfl, by simp [hmd]⟩

/-- A successful chain build yields joints named after the markers in order,
the first joint parented to `jParent`, each later joint parented to its
predecessor, and every requested marker present in the data. -/
theorem createJointChainFromMarkers_ok {ns : List String}
    {md : String → Option Vec3} {p : Option String} {l : List Joint}
    (h : createJointChainFromMarkers ns md p = .ok l) :
    l.map Joint.name = ns
    ∧ (∀ j, l.head? = some j → j.parent = p)
    ∧ List.Chain' (fun a b => b.parent = some a.name) l
    ∧ (∀ n ∈ ns, (md n).isSome) := by
  induction ns generalizing p l with
  | nil =>
    unfold createJointChainFromMarkers at h
    cases h
    simp
  | cons n rest ih =>
    unfold createJointChainFromMarkers at h
    cases hj : createJointFromMarker n md p with
    | error e => rw [hj, exceptErrorBind] at h; cases h
    | ok j =>
      rw [hj, exceptOkBind] at h
      cases hc : createJointChainFromMarkers rest md (some j.name) with
      | error e => rw [hc, exceptErrorBind] at h; cases h
      | ok chain =>
        rw [hc, exceptOkBind, exceptPureEq] at h
        cases h
        obtain ⟨hjn, hjp, hjs⟩ := createJointFromMarker_ok hj
        obtain ⟨hnames, hhead, hchain, hsome⟩ := ih hc
        refine ⟨by simp [hjn, hnames], ?_, ?_, ?_⟩
        · intro x hx
          simp at hx
          rw [← hx]
          exact hjp
        · exact List.chain'_cons'.mpr ⟨fun y hy => hhead y hy, hchain⟩
        · intro m hm
          rcases List.mem_cons.mp hm with hm | hm
          · rw [hm]; exact hjs
          · exact hsome m hm

/-- A chain build over names that are all present succeeds. -/
theorem createJointChainFromMarkers_total (ns : List String)
    {md : String → Option Vec3}
    (h : ∀ n ∈ ns, (md n).isSome) (p : Option String) :
    ∃ l, createJointChainFromMarkers ns md p = .ok l := by
  induction ns generalizing p with
  | nil => exact ⟨[], rfl⟩
  | cons n rest ih =>
    obtain ⟨v, hv⟩ := Option.isSome_iff_exists.mp (h n (by simp))
    obtain ⟨l, hl⟩ := ih (fun m hm => h m (by simp [hm])) (some n)
    refine ⟨⟨n, p, v⟩ :: l, ?_⟩
    unfold createJointChainFromMarkers createJointFromMarker
    rw [hv, exceptOkBind, hl, exceptOkBind, exceptPureEq]

/-- A chain build whose first marker is missing fails with that marker's
name (`KeyError` / `MissingMarkerError`). -/
theorem createJointChainFromMarkers_error_head {n : String} {rest : List String}
    {md : String → Option Vec3} (h : md n = none) (p : Option String) :
    createJointChainFromMarkers (n :: rest) md p = .error n := by
  unfold createJointChainFromMarkers createJointFromMarker
  rw [h, exceptErrorBind]

/-- Characterisation of Python `l[-3]` on a success. -/
theorem pyIdxNeg3_ok {l : List Joint} {j : Joint} (h : pyIdxNeg3 l = .ok j) :
    ∃ h3 : 3 ≤ l.length, j = l.get ⟨l.length - 3, by omega⟩ := by
  unfold pyIdxNeg3 at h
  split at h
  · cases h
    next h3 => exact ⟨h3, rfl⟩
  · cases h

/-- A marker present in the data makes `createJointFromMarker` succeed. -/
theorem createJointFromMarker_total {n : String} {md : String → Option Vec3}
    (h : (md n).isSome) (p : Option String) :
    ∃ j, createJointFromMarker n md p = .ok j := by
  obtain ⟨v, hv⟩ := Option.isSome_iff_exists.mp h
  exact ⟨⟨n, p, v⟩, by unfold createJointFromMarker; rw [hv]⟩

/-- Python `l[-3]` succeeds on lists of length at least three. -/
theorem pyIdxNeg3_total {l : List Joint} (h : 3 ≤ l.length) :
    ∃ j, pyIdxNeg3 l = .ok j := by
  unfold pyIdxNeg3
  rw [dif_pos h]
  exact ⟨_, rfl⟩

/-- Python `l[-1]` succeeds on non-empty lists. -/
theorem pyIdxLast_total {l : List Joint} (h : l ≠ []) :
    ∃ j, pyIdxLast l = .ok j := by
  unfold pyIdxLast
  cases hg : l.getLast? with
  | none => exact absurd (List.getLast?_eq_none_iff.mp hg) h
  | some j => exact ⟨j, rfl⟩

/-- Everything a successful `createSkeleton` run guarantees: names and
parents of root and pelvis, the spine chain's names, head-parent and
internal linking, the limb attachment joint `spineJs[-3]` (`spine3` for the
plain spine, `spine9` for the spline spine) parenting both arm chains, both
leg chains parented to the pelvis, the limb chains' names, and presence of
every required marker in the data. -/
theorem createSkeleton_ok_spec {md : String → Option Vec3} {s : Bool}
    {r : SkelResult} (h : createSkeleton md s = .ok r) :
    r.rootJ.name = "root" ∧ r.rootJ.parent = none
    ∧ r.pelvisJ.name = "pelvis" ∧ r.pelvisJ.parent = some "root"
    ∧ r.spineJs.map Joint.name = (baseMarkerNames s).drop 2
    ∧ (∀ j, r.spineJs.head? = some j → j.parent = some "pelvis")
    ∧ List.Chain' (fun a b => b.parent = some a.name) r.spineJs
    ∧ (∃ aj, pyIdxNeg3 r.spineJs = .ok aj
        ∧ aj.name = (if s then "spine9" else "spine3")
        ∧ (∀ j, r.leftArmJs.head? = some j → j.parent = some aj.name)
        ∧ (∀ j, r.rightArmJs.head? = some j → j.parent = some aj.name))
    ∧ (∀ j, r.leftLegJs.head? = some j → j.parent = some "pelvis")
    ∧ (∀ j, r.rightLegJs.head? = some j → j.parent = some "pelvis")
    ∧ r.leftArmJs.map Joint.name = leftMarkerNames.take 4
    ∧ r.leftLegJs.map Joint.name = leftMarkerNames.drop 13
    ∧ r.rightArmJs.map Joint.name = rightMarkerNames.take 4
    ∧ r.rightLegJs.map Joint.name = rightMarkerNames.drop 13
    ∧ (∀ n ∈ requiredMarkers s, (md n).isSome) := by
  simp only [createSkeleton] at h
  cases h1 : createJointFromMarker "root" md none with
  | error e => simp only [h1, exceptErrorBind] at h; exact Except.noConfusion h
  | ok rootJ =>
  simp only [h1, exceptOkBind] at h
  cases h2 : createJointFromMarker "pelvis" md (some rootJ.name) with
  | error e => simp only [h2, exceptErrorBind] at h; exact Except.noConfusion h
  | ok pelvisJ =>
  simp only [h2, exceptOkBind] at h
  cases h3 : createJointChainFromMarkers ((baseMarkerNames s).drop 2) md
      (some pelvisJ.name) with
  | error e => simp only [h3, exceptErrorBind] at h; exact Except.noConfusion h
  | ok spineJs =>
  simp only [h3, exceptOkBind] at h
  cases h4 : pyIdxNeg3 spineJs with
  | error e => simp only [h4, exceptErrorBind] at h; exact Except.noConfusion h
  | ok spineAttach =>
  simp only [h4, exceptOkBind] at h
  cases h5 : createJointChainFromMarkers (leftMarkerNames.take 4) md
      (some spineAttach.name) with
  | error e => simp only [h5, exceptErrorBind] at h; exact Except.noConfusion h
  | ok leftArmJs =>
  simp only [h5, exceptOkBind] at h
  cases h6 : pyIdxLast leftArmJs with
  | error e => simp only [h6, exceptErrorBind] at h; exact Except.noConfusion h
  | ok leftHand =>
  simp only [h6, exceptOkBind] at h
  cases h7 : createJointChainFromMarkers ((leftMarkerNames.drop 4).take 3) md
      (some leftHand.name) with
  | error e => simp only [h7, exceptErrorBind] at h; exact Except.noConfusion h
  | ok leftThumbJs =>
  simp only [h7, exceptOkBind] at h
  cases h8 : createJointChainFromMarkers ((leftMarkerNames.drop 7).take 3) md
      (some leftHand.name) with
  | error e => simp only [h8, exceptErrorBind] at h; exact Except.noConfusion h
  | ok leftIndexJs =>
  simp only [h8, exceptOkBind] at h
  cases h9 : createJointChainFromMarkers ((leftMarkerNames.drop 10).take 3) md
      (some leftHand.name) with
  | error e => simp only [h9, exceptErrorBind] at h; exact Except.noConfusion h
  | ok leftMiddleJs =>
  simp only [h9, exceptOkBind] at h
  cases h10 : createJointChainFromMarkers (leftMarkerNames.drop 13) md
      (some pelvisJ.name) with
  | error e => simp only [h10, exceptErrorBind] at h; exact Except.noConfusion h
  | ok leftLegJs =>
  simp only [h10, exceptOkBind] at h
  cases h11 : createJointChainFromMarkers (rightMarkerNames.take 4) md
      (some spineAttach.name) with
  | error e => simp only [h11, exceptErrorBind] at h; exact Except.noConfusion h
  | ok rightArmJs =>
  simp only [h11, exceptOkBind] at h
  cases h12 : pyIdxLast rightArmJs with
  | error e => simp only [h12, exceptErrorBind] at h; exact Except.noConfusion h
  | ok rightHand =>
  simp only [h12, exceptOkBind] at h
  cases h13 : createJointChainFromMarkers ((rightMarkerNames.drop 4).take 3) md
      (some rightHand.name) with
  | error e => simp only [h13, exceptErrorBind] at h; exact Except.noConfusion h
  | ok rightThumbJs =>
  simp only [h13, exceptOkBind] at h
  cases h14 : createJointChainFromMarkers ((rightMarkerNames.drop 7).take 3) md
      (some rightHand.name) with
  | error e => simp only [h14, exceptErrorBind] at h; exact Except.noConfusion h
  | ok rightIndexJs =>
  simp only [h14, exceptOkBind] at h
  cases h15 : createJointChainFromMarkers ((rightMarkerNames.drop 10).take 3) md
      (some rightHand.name) with
  | error e => simp only [h15, exceptErrorBind] at h; exact Except.noConfusion h
  | ok rightMiddleJs =>
  simp only [h15, exceptOkBind] at h
  cases h16 : createJointChainFromMarkers (rightMarkerNames.drop 13) md
      (some pelvisJ.name) with
  | error e => simp only [h16, exceptErrorBind] at h; exact Except.noConfusion h
  | ok rightLegJs =>
  simp only [h16, exceptOkBind, exceptPureEq] at h
  cases h
  obtain ⟨hrn, hrp, hrs⟩ := createJointFromMarker_ok h1
  obtain ⟨hpn, hpp, hps⟩ := createJointFromMarker_ok h2
  obtain ⟨hspN, hspH, hspC, hspS⟩ := createJointChainFromMarkers_ok h3
  obtain ⟨hlaN, hlaH, hlaC, hlaS⟩ := createJointChainFromMarkers_ok h5
  obtain ⟨hltN, hltH, hltC, hltS⟩ := createJointChainFromMarkers_ok h7
  obtain ⟨hliN, hliH, hliC, hliS⟩ := createJointChainFromMarkers_ok h8
  obtain ⟨hlmN, hlmH, hlmC, hlmS⟩ := createJointChainFromMarkers_ok h9
  obtain ⟨hllN, hllH, hllC, hllS⟩ := createJointChainFromMarkers_ok h10
  obtain ⟨hraN, hraH, hraC, hraS⟩ := createJointChainFromMarkers_ok h11
  obtain ⟨hrtN, hrtH, hrtC, hrtS⟩ := createJointChainFromMarkers_ok h13
  obtain ⟨hriN, hriH, hriC, hriS⟩ := createJointChainFromMarkers_ok h14
  obtain ⟨hrmN, hrmH, hrmC, hrmS⟩ := createJointChainFromMarkers_ok h15
  obtain ⟨hrlN, hrlH, hrlC, hrlS⟩ := createJointChainFromMarkers_ok h16
  have haname : spineAttach.name = (if s then "spine9" else "spine3") := by
    obtain ⟨hb3, hae⟩ := pyIdxNeg3_ok h4
    have hlen : spineJs.length = ((baseMarkerNames s).drop 2).length := by
      have hx := congrArg List.length hspN
      simpa using hx
    rw [hae]
    cases s with
    | false =>
      have h5len : spineJs.length = 5 := hlen.trans rfl
      have hq := congrArg (fun l => l[2]?) hspN
      simp only [List.getElem?_map] at hq
      rw [List.getElem?_eq_getElem (by omega)] at hq
      have hrhs : ((baseMarkerNames false).drop 2)[2]? = some "spine3" := rfl
      rw [hrhs] at hq
      simp only [Option.map_some', Option.some.injEq] at hq
      simp only [List.get_eq_getElem, h5len]
      simpa using hq
    | true =>
      have h11len : spineJs.length = 11 := hlen.trans rfl
      have hq := congrArg (fun l => l[8]?) hspN
      simp only [List.getElem?_map] at hq
      rw [List.getElem?_eq_getElem (by omega)] at hq
      have hrhs : ((baseMarkerNames true).drop 2)[8]? = some "spine9" := rfl
      rw [hrhs] at hq
      simp only [Option.map_some', Option.some.injEq] at hq
      simp only [List.get_eq_getElem, h11len]
      simpa using hq
  refine ⟨hrn, hrp, hpn, by rw [hpp, hrn], hspN,
          fun j hj => by rw [hspH j hj, hpn],
          hspC,
          ⟨spineAttach, h4, haname,
           fun j hj => hlaH j hj,
           fun j hj => hraH j hj⟩,
          fun j hj => by rw [hllH j hj, hpn],
          fun j hj => by rw [hrlH j hj, hpn],
          hlaN, hllN, hraN, hrlN, ?_⟩
  intro n hn
  have hreq : requiredMarkers s
      = baseMarkerNames s ++ (leftMarkerNames ++ rightMarkerNames) := by
    cases s <;> rfl
  rw [hreq] at hn
  rcases List.mem_append.mp hn with hb | hlr
  · have hbase : baseMarkerNames s
        = "root" :: "pelvis" :: (baseMarkerNames s).drop 2 := by cases s <;> rfl
    rw [hbase] at hb
    rcases List.mem_cons.mp hb with rfl | hb
    · exact hrs
    rcases List.mem_cons.mp hb with rfl | hb
    · exact hps
    · exact hspS n hb
  · rcases List.mem_append.mp hlr with hl | hr
    · have hleft : leftMarkerNames
          = leftMarkerNames.take 4 ++ ((leftMarkerNames.drop 4).take 3
            ++ ((leftMarkerNames.drop 7).take 3
            ++ ((leftMarkerNames.drop 10).take 3
            ++ leftMarkerNames.drop 13))) := by rfl
      rw [hleft] at hl
      rcases List.mem_append.mp hl with hx | hl
      · exact hlaS n hx
      rcases List.mem_append.mp hl with hx | hl
      · exact hltS n hx
      rcases List.mem_append.mp hl with hx | hl
      · exact hliS n hx
      rcases List.mem_append.mp hl with hx | hx
      · exact hlmS n hx
      · exact hllS n hx
    · have hright : rightMarkerNames
          = rightMarkerNames.take 4 ++ ((rightMarkerNames.drop 4).take 3
            ++ ((rightMarkerNames.drop 7).take 3
            ++ ((rightMarkerNames.drop 10).take 3
            ++ rightMarkerNames.drop 13))) := by rfl
      rw [hright] at hr
      rcases List.mem_append.mp hr with hx | hr
      · exact hraS n hx
      rcases List.mem_append.mp hr with hx | hr
      · exact hrtS n hx
      rcases List.mem_append.mp hr with hx | hr
      · exact hriS n hx
      rcases List.mem_append.mp hr with hx | hx
      · exact hrmS n hx
      · exact hrlS n hx

end Skeleton

/-- **C7.**  If the marker map lacks any name required by the selected
topology (base or spline-base, plus the side marker sets), the skeleton
build fails with a `MissingMarkerError` (the Python `KeyError`, modelled as
`Except.error`). -/
theorem claim_C7_missing_marker_fails (md : String → Option Vec3) (s : Bool)
    (h : ∃ n ∈ Skeleton.requiredMarkers s, md n = none) :
    ∃ e, Skeleton.createSkeleton md s = Except.error e := by
  cases hx : Skeleton.createSkeleton md s with
  | error e => exact ⟨e, rfl⟩
  | ok r =>
    obtain ⟨n, hn, hnone⟩ := h
    obtain ⟨-, -, -, -, -, -, -, -, -, -, -, -, -, -, hreq⟩ :=
      Skeleton.createSkeleton_ok_spec hx
    have hx2 := hreq n hn
    rw [hnone] at hx2
    simp at hx2

/-- Witness for C7: the half-body map lacks the required `clavicle_r`. -/
theorem claim_C7_missing_marker_fails_witness :
    (∃ n ∈ Skeleton.requiredMarkers false, Skeleton.halfBodyData false n = none)
    ∧ ∃ e, Skeleton.createSkeleton (Skeleton.halfBodyData false) false
        = Except.error e :=
  ⟨⟨"clavicle_r", by decide, by decide⟩,
   claim_C7_missing_marker_fails (Skeleton.halfBodyData false) false
     ⟨"clavicle_r", by decide, by decide⟩⟩

/-- Counterexample to **C1**: on the half-body marker map (base, resp.
spline-base, plus left-side markers only) `createSkeleton` does not succeed
with left-side chains — it raises `MissingMarkerError` (`KeyError
'clavicle_r'`) during the build itself, because right-side chains are built
unconditionally. -/
theorem claim_C1_counterexample :
    Skeleton.createSkeleton (Skeleton.halfBodyData false) false
      = Except.error "clavicle_r"
    ∧ Skeleton.createSkeleton (Skeleton.halfBodyData true) true
      = Except.error "clavicle_r" :=
  ⟨by decide, by decide⟩

/-- **C1 (amended).**  For every marker map containing all base (or
spline-base) and left-side names but lacking `clavicle_r` — in particular
every half-body map — `createSkeleton` always fails with
`MissingMarkerError "clavicle_r"`: the build itself unconditionally
requests the right-side markers, so a half-body build never succeeds and
never returns left-side-only chains. -/
theorem claim_C1_amended_half_body_always_fails (md : String → Option Vec3)
    (s : Bool)
    (hbase : ∀ n ∈ Skeleton.baseMarkerNames s, (md n).isSome)
    (hleft : ∀ n ∈ Skeleton.leftMarkerNames, (md n).isSome)
    (hmiss : md "clavicle_r" = none) :
    Skeleton.createSkeleton md s = Except.error "clavicle_r" := by
  have hrootm : "root" ∈ Skeleton.baseMarkerNames s := by cases s <;> decide
  have hpelvm : "pelvis" ∈ Skeleton.baseMarkerNames s := by cases s <;> decide
  simp only [Skeleton.createSkeleton]
  obtain ⟨j1, hj1⟩ := Skeleton.createJointFromMarker_total (hbase "root" hrootm) none
  simp only [hj1, exceptOkBind]
  obtain ⟨j2, hj2⟩ :=
    Skeleton.createJointFromMarker_total (hbase "pelvis" hpelvm) (some j1.name)
  simp only [hj2, exceptOkBind]
  obtain ⟨spineJs, hsp⟩ := Skeleton.createJointChainFromMarkers_total
    ((Skeleton.baseMarkerNames s).drop 2)
    (fun n hn => hbase n (List.mem_of_mem_drop hn)) (some j2.name)
  simp only [hsp, exceptOkBind]
  have hlen : spineJs.length = ((Skeleton.baseMarkerNames s).drop 2).length := by
    have hx := congrArg List.length (Skeleton.createJointChainFromMarkers_ok hsp).1
    simpa using hx
  have h3le : 3 ≤ spineJs.length := by
    rw [hlen]
    cases s <;> decide
  obtain ⟨aj, haj⟩ := Skeleton.pyIdxNeg3_total h3le
  simp only [haj, exceptOkBind]
  obtain ⟨leftArmJs, hla⟩ := Skeleton.createJointChainFromMarkers_total
    (Skeleton.leftMarkerNames.take 4)
    (fun n hn => hleft n (List.mem_of_mem_take hn)) (some aj.name)
  simp only [hla, exceptOkBind]
  have hla4 : leftArmJs.length = 4 := by
    have hx := congrArg List.length (Skeleton.createJointChainFromMarkers_ok hla).1
    rw [List.length_map] at hx
    exact hx.trans rfl
  obtain ⟨hand, hhand⟩ := Skeleton.pyIdxLast_total (l := leftArmJs)
    (by intro hnil; rw [hnil] at hla4; cases hla4)
  simp only [hhand, exceptOkBind]
  obtain ⟨ltJs, hlt⟩ := Skeleton.createJointChainFromMarkers_total
    ((Skeleton.leftMarkerNames.drop 4).take 3)
    (fun n hn => hleft n (List.mem_of_mem_drop (List.mem_of_mem_take hn)))
    (some hand.name)
  simp only [hlt, exceptOkBind]
  obtain ⟨liJs, hli⟩ := Skeleton.createJointChainFromMarkers_total
    ((Skeleton.leftMarkerNames.drop 7).take 3)
    (fun n hn => hleft n (List.mem_of_mem_drop (List.mem_of_mem_take hn)))
    (some hand.name)
  simp only [hli, exceptOkBind]
  obtain ⟨lmJs, hlm⟩ := Skeleton.createJointChainFromMarkers_total
    ((Skeleton.leftMarkerNames.drop 10).take 3)
    (fun n hn => hleft n (List.mem_of_mem_drop (List.mem_of_mem_take hn)))
    (some hand.name)
  simp only [hlm, exceptOkBind]
  obtain ⟨llJs, hll⟩ := Skeleton.createJointChainFromMarkers_total
    (Skeleton.leftMarkerNames.drop 13)
    (fun n hn => hleft n (List.mem_of_mem_drop hn)) (some j2.name)
  simp only [hll, exceptOkBind]
  have hrtake : Skeleton.rightMarkerNames.take 4
      = "clavicle_r" :: ["upperArm_r", "lowerArm_r", "hand_r"] := rfl
  rw [hrtake, Skeleton.createJointChainFromMarkers_error_head hmiss, exceptErrorBind]

/-- Witness for the amended C1: the concrete plain-spine half-body map. -/
theorem claim_C1_amended_half_body_always_fails_witness :
    ((∀ n ∈ Skeleton.baseMarkerNames false,
        (Skeleton.halfBodyData false n).isSome)
     ∧ (∀ n ∈ Skeleton.leftMarkerNames, (Skeleton.halfBodyData false n).isSome)
     ∧ Skeleton.halfBodyData false "clavicle_r" = none)
    ∧ Skeleton.createSkeleton (Skeleton.halfBodyData false) false
        = Except.error "clavicle_r" :=
  ⟨⟨by decide, by decide, by decide⟩,
   claim_C1_amended_half_body_always_fails (Skeleton.halfBodyData false) false
     (by decide) (by decide) (by decide)⟩

/-- Counterexample to **C8**: in a concrete full-body plain-spine build, the
left leg chain is parented to `pelvis`, not to the spine joint three
positions from the far end (`spineJs[-3] = spine3`) — so not every limb
chain attaches under `spineJs[-3]`. -/
theorem claim_C8_counterexample :
    (Skeleton.createSkeleton (Skeleton.fullBodyData false) false).map
        (fun r => (r.leftLegJs.head?.map Joint.parent,
                   (Skeleton.pyIdxNeg3 r.spineJs).map Joint.name))
      = Except.ok (some (some "pelvis"), Except.ok "spine3")
    ∧ "pelvis" ≠ "spine3" :=
  ⟨by decide, by decide⟩

/-- **C8 (amended).**  `createSkeleton` creates the root joint with no
parent and the pelvis under it, the spine chain under the pelvis, and
attaches each **arm** chain under the spine joint three positions from the
far end of the spine chain (`spineJs[-3]`) — the same topology-defined
index for the plain spine (`spine3`) as for the spline spine (`spine9`),
not hardcoded per spine length — while each **leg** chain is attached under
the pelvis. -/
theorem claim_C8_amended_skeleton_structure (md : String → Option Vec3)
    (s : Bool) (r : Skeleton.SkelResult)
    (h : Skeleton.createSkeleton md s = .ok r) :
    r.rootJ.name = "root" ∧ r.rootJ.parent = none
    ∧ r.pelvisJ.name = "pelvis" ∧ r.pelvisJ.parent = some "root"
    ∧ (∀ j, r.spineJs.head? = some j → j.parent = some "pelvis")
    ∧ List.Chain' (fun a b => b.parent = some a.name) r.spineJs
    ∧ (∃ aj, Skeleton.pyIdxNeg3 r.spineJs = .ok aj
        ∧ aj.name = (if s then "spine9" else "spine3")
        ∧ (∀ j, r.leftArmJs.head? = some j → j.parent = some aj.name)
        ∧ (∀ j, r.rightArmJs.head? = some j → j.parent = some aj.name))
    ∧ (∀ j, r.leftLegJs.head? = some j → j.parent = some "pelvis")
    ∧ (∀ j, r.rightLegJs.head? = some j → j.parent = some "pelvis") := by
  obtain ⟨h1, h2, h3, h4, -, h6, h7, h8, h9, h10, -, -, -, -, -⟩ :=
    Skeleton.createSkeleton_ok_spec h
  exact ⟨h1, h2, h3, h4, h6, h7, h8, h9, h10⟩

/-- Witness for the amended C8: the concrete full-body plain-spine build
succeeds and the amended structure holds for its result. -/
theorem claim_C8_amended_skeleton_structure_witness :
    ∃ r, Skeleton.createSkeleton (Skeleton.fullBodyData false) false
        = Except.ok r
      ∧ (r.rootJ.name = "root" ∧ r.rootJ.parent = none
         ∧ r.pelvisJ.name = "pelvis" ∧ r.pelvisJ.parent = some "root"
         ∧ (∀ j, r.spineJs.head? = some j → j.parent = some "pelvis")
         ∧ List.Chain' (fun a b => b.parent = some a.name) r.spineJs
         ∧ (∃ aj, Skeleton.pyIdxNeg3 r.spineJs = .ok aj
             ∧ aj.name = (if false then "spine9" else "spine3")
             ∧ (∀ j, r.leftArmJs.head? = some j → j.parent = some aj.name)
             ∧ (∀ j, r.rightArmJs.head? = some j → j.parent = some aj.name))
         ∧ (∀ j, r.leftLegJs.head? = some j → j.parent = some "pelvis")
         ∧ (∀ j, r.rightLegJs.head? = some j → j.parent = some "pelvis")) := by
  cases hx : Skeleton.createSkeleton (Skeleton.fullBodyData false) false with
  | error e =>
    have hok : (Skeleton.createSkeleton (Skeleton.fullBodyData false)
        false).toOption.isSome = true := by decide
    rw [hx] at hok
    cases hok
  | ok r =>
    exact ⟨r, rfl,
      claim_C8_amended_skeleton_structure (Skeleton.fullBodyData false) false r hx⟩

/-! ### Scale-reparenter lemmas -/

/-- Folding `reparent` over a list of nodes keeps the node list. -/
theorem foldl_reparent_nodes (L : List String) (d : Hierarchy) (t : String) :
    (L.foldl (fun acc kid => acc.reparent kid t) d).nodes = d.nodes := by
  induction L generalizing d with
  | nil => rfl
  | cons a L ih =>
    rw [List.foldl_cons, ih]
    rfl

/-- Folding `reparent` over a list of nodes parents exactly those nodes to
the target and leaves every other parent pointer unchanged. -/
theorem foldl_reparent_parentOf (L : List String) (d : Hierarchy) (t n : String) :
    (L.foldl (fun acc kid => acc.reparent kid t) d).parentOf n
      = if n ∈ L then some t else d.parentOf n := by
  induction L generalizing d with
  | nil => simp
  | cons a L ih =>
    rw [List.foldl_cons, ih]
    by_cases hn : n ∈ L
    · simp [hn]
    · by_cases hna : n = a
      · simp [Hierarchy.reparent, hna, hn]
      · simp [Hierarchy.reparent, hna, hn]

/-- **C9.**  `createUnifromScaling` re-parents every sibling of the root
controller's offset node under the rig's top group to be a direct child of
the root controller, and every remaining child of the offset node other
than the root controller itself (the shape-bearing node) directly under the
root controller; afterwards the offset node is the only child of the top
group and the root controller the only child of the offset node — exactly
one ownership level remains between the rig's top group and the offset
node's subtree. -/
theorem claim_C9_uniform_scaling_reparents (d : Hierarchy)
    (rootCntrl parentGrp : String)
    (hnd : d.nodes.Nodup)
    (hoffmem : rootCntrl ++ "_parent" ∈ d.nodes)
    (hoffpar : d.parentOf (rootCntrl ++ "_parent") = some parentGrp)
    (hctlmem : rootCntrl ∈ d.nodes)
    (hctlpar : d.parentOf rootCntrl = some (rootCntrl ++ "_parent"))
    (hne1 : rootCntrl ≠ parentGrp)
    (hne2 : rootCntrl ++ "_parent" ≠ parentGrp)
    (hne3 : rootCntrl ≠ rootCntrl ++ "_parent") :
    (createUnifromScaling d rootCntrl parentGrp).nodes = d.nodes
    ∧ (∀ n ∈ d.nodes,
        ((createUnifromScaling d rootCntrl parentGrp).parentOf n = some parentGrp
          ↔ n = rootCntrl ++ "_parent"))
    ∧ (∀ n ∈ d.nodes,
        ((createUnifromScaling d rootCntrl parentGrp).parentOf n
            = some (rootCntrl ++ "_parent") ↔ n = rootCntrl))
    ∧ (∀ n ∈ d.nodes, n ≠ rootCntrl ++ "_parent" →
        d.parentOf n = some parentGrp →
        (createUnifromScaling d rootCntrl parentGrp).parentOf n = some rootCntrl)
    ∧ (∀ n ∈ d.nodes, n ≠ rootCntrl →
        d.parentOf n = some (rootCntrl ++ "_parent") →
        (createUnifromScaling d rootCntrl parentGrp).parentOf n = some rootCntrl) := by
  set e := rootCntrl ++ "_parent" with he
  set L1 := (d.children parentGrp).erase e with hL1def
  set d1 := L1.foldl (fun acc kid => acc.reparent kid rootCntrl) d with hd1def
  set L2 := (d1.children e).erase rootCntrl with hL2def
  have hCU : createUnifromScaling d rootCntrl parentGrp
      = L2.foldl (fun acc kid => acc.reparent kid rootCntrl) d1 := rfl
  have hd1nodes : d1.nodes = d.nodes := foldl_reparent_nodes L1 d rootCntrl
  have hd1par : ∀ n, d1.parentOf n = if n ∈ L1 then some rootCntrl else d.parentOf n :=
    fun n => foldl_reparent_parentOf L1 d rootCntrl n
  have hL1mem : ∀ n, n ∈ L1
      ↔ n ≠ e ∧ n ∈ d.nodes ∧ d.parentOf n = some parentGrp := by
    intro n
    rw [hL1def]
    simp only [Hierarchy.children]
    rw [List.Nodup.mem_erase_iff (hnd.filter _)]
    simp [List.mem_filter, and_assoc]
  have hd1parE : ∀ n, (d1.parentOf n = some e ↔ d.parentOf n = some e) := by
    intro n
    rw [hd1par n]
    by_cases hn : n ∈ L1
    · obtain ⟨-, -, hpg⟩ := (hL1mem n).mp hn
      simp only [if_pos hn]
      constructor
      · intro hx
        exact absurd (Option.some.inj hx) hne3
      · intro hx
        rw [hx] at hpg
        exact absurd (Option.some.inj hpg) hne2
    · rw [if_neg hn]
  have hL2mem : ∀ n, n ∈ L2
      ↔ n ≠ rootCntrl ∧ n ∈ d.nodes ∧ d.parentOf n = some e := by
    intro n
    have hnd1 : d1.nodes.Nodup := by rw [hd1nodes]; exact hnd
    rw [hL2def]
    simp only [Hierarchy.children]
    rw [List.Nodup.mem_erase_iff (hnd1.filter _)]
    simp only [List.mem_filter, beq_iff_eq, hd1nodes, and_assoc]
    constructor
    · rintro ⟨h1, h2, h3⟩
      exact ⟨h1, h2, (hd1parE n).mp h3⟩
    · rintro ⟨h1, h2, h3⟩
      exact ⟨h1, h2, (hd1parE n).mpr h3⟩
  have hdpar : ∀ n, (createUnifromScaling d rootCntrl parentGrp).parentOf n
      = if n ∈ L2 then some rootCntrl else d1.parentOf n := by
    intro n
    rw [hCU]
    exact foldl_reparent_parentOf L2 d1 rootCntrl n
  refine ⟨?_, ?_, ?_, ?_, ?_⟩
  · rw [hCU, foldl_reparent_nodes]
    exact hd1nodes
  · intro n hn
    rw [hdpar n]
    by_cases h2 : n ∈ L2
    · obtain ⟨hnr, -, hpe⟩ := (hL2mem n).mp h2
      rw [if_pos h2]
      constructor
      · intro hx
        exact absurd (Option.some.inj hx) hne1
      · rintro rfl
        rw [hoffpar] at hpe
        exact absurd (Option.some.inj hpe).symm hne2
    · rw [if_neg h2, hd1par n]
      by_cases h1 : n ∈ L1
      · obtain ⟨hne, -, -⟩ := (hL1mem n).mp h1
        rw [if_pos h1]
        constructor
        · intro hx
          exact absurd (Option.some.inj hx) hne1
        · intro hx
          exact absurd hx hne
      · rw [if_neg h1]
        constructor
        · intro hp
          by_contra hne
          exact h1 ((hL1mem n).mpr ⟨hne, hn, hp⟩)
        · rintro rfl
          exact hoffpar
  · intro n hn
    rw [hdpar n]
    by_cases h2 : n ∈ L2
    · obtain ⟨hnr, -, -⟩ := (hL2mem n).mp h2
      rw [if_pos h2]
      constructor
      · intro hx
        exact absurd (Option.some.inj hx) hne3
      · intro hx
        exact absurd hx hnr
    · rw [if_neg h2, hd1par n]
      by_cases h1 : n ∈ L1
      · obtain ⟨-, -, hpg⟩ := (hL1mem n).mp h1
        rw [if_pos h1]
        constructor
        · intro hx
          exact absurd (Option.some.inj hx) hne3
        · rintro rfl
          rw [hctlpar] at hpg
          exact absurd (Option.some.inj hpg) hne2
      · rw [if_neg h1]
        constructor
        · intro hp
          by_contra hne
          exact h2 ((hL2mem n).mpr ⟨hne, hn, hp⟩)
        · rintro rfl
          exact hctlpar
  · intro n hn hne hp
    have h1 : n ∈ L1 := (hL1mem n).mpr ⟨hne, hn, hp⟩
    have h2 : n ∉ L2 := by
      intro hx
      obtain ⟨-, -, hpe⟩ := (hL2mem n).mp hx
      rw [hp] at hpe
      exact hne2 (Option.some.inj hpe).symm
    rw [hdpar n, if_neg h2, hd1par n, if_pos h1]
  · intro n hn hne hp
    have h2 : n ∈ L2 := (hL2mem n).mpr ⟨hne, hn, hp⟩
    rw [hdpar n, if_pos h2]

/-- Witness for C9: the concrete `sampleRig` hierarchy with root controller
`ctrl_root` and top group `rig`. -/
theorem claim_C9_uniform_scaling_reparents_witness :
    (sampleRig.nodes.Nodup
     ∧ "ctrl_root" ++ "_parent" ∈ sampleRig.nodes
     ∧ sampleRig.parentOf ("ctrl_root" ++ "_parent") = some "rig"
     ∧ "ctrl_root" ∈ sampleRig.nodes
     ∧ sampleRig.parentOf "ctrl_root" = some ("ctrl_root" ++ "_parent"))
    ∧ ((createUnifromScaling sampleRig "ctrl_root" "rig").nodes = sampleRig.nodes
       ∧ (∀ n ∈ sampleRig.nodes,
           ((createUnifromScaling sampleRig "ctrl_root" "rig").parentOf n
               = some "rig" ↔ n = "ctrl_root" ++ "_parent"))
       ∧ (∀ n ∈ sampleRig.nodes,
           ((createUnifromScaling sampleRig "ctrl_root" "rig").parentOf n
               = some ("ctrl_root" ++ "_parent") ↔ n = "ctrl_root"))
       ∧ (∀ n ∈ sampleRig.nodes, n ≠ "ctrl_root" ++ "_parent" →
           sampleRig.parentOf n = some "rig" →
           (createUnifromScaling sampleRig "ctrl_root" "rig").parentOf n
             = some "ctrl_root")
       ∧ (∀ n ∈ sampleRig.nodes, n ≠ "ctrl_root" →
           sampleRig.parentOf n = some ("ctrl_root" ++ "_parent") →
           (createUnifromScaling sampleRig "ctrl_root" "rig").parentOf n
             = some "ctrl_root")) :=
  ⟨⟨by decide, by decide, by decide, by decide, by decide⟩,
   claim_C9_uniform_scaling_reparents sampleRig "ctrl_root" "rig"
     (by decide) (by decide) (by decide) (by decide) (by decide)
     (by decide) (by decide) (by decide)⟩

end AutoRigger
